import Mathlib

/-!
Verification development for the lldb-copilot plugin sources.

The definitions below are a shallow embedding of the C++ sources:
settings persistence (src/settings.cpp, src/settings.hpp), the session-id
store (src/session_store.cpp), the agent session state machine and the two
user commands (src/lldb_commands.cpp), and the debugger shim
(src/lldb_client.cpp).  External collaborators (the libagents runtime and
the LLDB command interpreter) are modelled as an environment record whose
fields give the outcome of each external call; calls into them are recorded
in an event trace.
-/

namespace LldbCopilot

/-! ## Association-list maps

std::unordered_map is modelled as an association list without duplicate
keys; operator[] assignment replaces in place or appends. -/

/-- Lookup in an association list (models unordered_map find). -/
def alookup {α : Type} : List (String × α) → String → Option α
  | [], _ => none
  | (k, v) :: rest, key => if k = key then some v else alookup rest key

/-- Insert-or-replace in an association list (models map[key] = value). -/
def aset {α : Type} : List (String × α) → String → α → List (String × α)
  | [], key, v => [(key, v)]
  | (k, w) :: rest, key, v =>
    if k = key then (key, v) :: rest else (k, w) :: aset rest key v

/-- Remove a key from an association list (models map.erase(key)). -/
def aerase {α : Type} (m : List (String × α)) (key : String) : List (String × α) :=
  m.filter (fun p => p.1 ≠ key)

/-- The keys of an association list are pairwise distinct (the representation
invariant of the C++ unordered_map). -/
def nodupKeys {α : Type} (m : List (String × α)) : Prop :=
  (m.map Prod.fst).Nodup

/-! ## Providers (libagents boundary) -/

/-- Provider enumeration consumed from libagents: the two providers the
plugin exposes (claude, copilot). -/
inductive ProviderType where
  | Claude
  | Copilot
  deriving DecidableEq

/-- Printable provider name, as used in settings and persisted JSON
(libagents provider_type_name at the boundary; the help text lists exactly
claude and copilot). -/
def provider_type_name : ProviderType → String
  | .Claude => "claude"
  | .Copilot => "copilot"

/-- std::tolower applied per character in the C locale, as the transform in
ParseProviderType does: only ASCII upper-case letters map down. -/
def toLowerAscii (s : String) : String :=
  ⟨s.data.map (fun c =>
    if 65 ≤ c.toNat ∧ c.toNat ≤ 90 then Char.ofNat (c.toNat + 32) else c)⟩

/-- ParseProviderType from src/settings.cpp: lowercases the name and accepts
claude, claude-code, copilot, github-copilot; anything else throws. -/
def ParseProviderType (name : String) : Except String ProviderType :=
  let lower := toLowerAscii name
  if lower = "claude" ∨ lower = "claude-code" then .ok .Claude
  else if lower = "copilot" ∨ lower = "github-copilot" then .ok .Copilot
  else .error ("Unknown provider: " ++ name)

/-! ## Settings record (src/settings.hpp) -/

/-- BYOKSettings from src/settings.hpp: per-provider bring-your-own-key
record. -/
structure BYOKSettings where
  enabled : Bool := false
  api_key : String := ""
  base_url : String := ""
  model : String := ""
  provider_type : String := ""
  timeout_ms : Int := 0
  deriving DecidableEq

/-- BYOKSettings::is_usable: enabled and the API key is non-empty. -/
def BYOKSettings.is_usable (b : BYOKSettings) : Bool :=
  b.enabled && b.api_key ≠ ""

/-- Settings from src/settings.hpp, with the struct defaults. -/
structure Settings where
  default_provider : ProviderType := .Copilot
  custom_prompt : String := ""
  response_timeout_ms : Int := 120000
  sessions : List (String × String) := []
  byok : List (String × BYOKSettings) := []
  deriving DecidableEq

/-- Settings::get_byok: the BYOK record for the current default provider,
if present. -/
def Settings.get_byok (s : Settings) : Option BYOKSettings :=
  alookup s.byok (provider_type_name s.default_provider)

/-- The guard `byok && byok->is_usable()` used throughout
src/lldb_commands.cpp. -/
def Settings.byokUsable (s : Settings) : Bool :=
  match s.get_byok with
  | some b => b.is_usable
  | none => false

/-! ## JSON model (nlohmann boundary)

Only the value shapes the settings file uses: strings, integers, booleans
and objects.  A typed get on the wrong shape throws (modelled as none). -/

/-- JSON values as used by the settings file. -/
inductive JVal where
  | jstr (s : String)
  | jint (n : Int)
  | jbool (b : Bool)
  | jobj (fields : List (String × JVal))

/-- Fields of a JSON object; contains/lookup on a non-object finds
nothing. -/
def jFields : JVal → List (String × JVal)
  | .jobj fs => fs
  | _ => []

/-- get of a string value; throws (none) on any other shape. -/
def jGetStr : JVal → Option String
  | .jstr s => some s
  | _ => none

/-- get of an integer value; throws (none) on any other shape. -/
def jGetInt : JVal → Option Int
  | .jint n => some n
  | _ => none

/-- get of a boolean value; throws (none) on any other shape. -/
def jGetBool : JVal → Option Bool
  | .jbool b => some b
  | _ => none

/-- items() iteration: the entries of an object; a primitive yields a single
entry with an empty key, mirroring nlohmann iteration. -/
def jItems : JVal → List (String × JVal)
  | .jobj fs => fs
  | v => [("", v)]

/-! ## SaveSettings (src/settings.cpp, lines 131-177) -/

/-- The fields written for one BYOKSettings record: enabled always, each
string field only when non-empty, timeout_ms only when positive. -/
def byokFields (b : BYOKSettings) : List (String × JVal) :=
  [("enabled", .jbool b.enabled)]
    ++ (if b.api_key = "" then [] else [("api_key", .jstr b.api_key)])
    ++ (if b.base_url = "" then [] else [("base_url", .jstr b.base_url)])
    ++ (if b.model = "" then [] else [("model", .jstr b.model)])
    ++ (if b.provider_type = "" then [] else [("provider_type", .jstr b.provider_type)])
    ++ (if b.timeout_ms > 0 then [("timeout_ms", .jint b.timeout_ms)] else [])

/-- The JSON object written for one BYOKSettings record. -/
def byokJson (b : BYOKSettings) : JVal :=
  .jobj (byokFields b)

/-- The fields of the JSON document SaveSettings writes: default_provider
always, the optional scalar fields only when non-empty or positive, the two
maps only when non-empty. -/
def saveFields (s : Settings) : List (String × JVal) :=
  [("default_provider", .jstr (provider_type_name s.default_provider))]
    ++ (if s.custom_prompt = "" then [] else [("custom_prompt", .jstr s.custom_prompt)])
    ++ (if s.response_timeout_ms > 0 then
          [("response_timeout_ms", .jint s.response_timeout_ms)] else [])
    ++ (if s.sessions = [] then [] else
          [("sessions", .jobj (s.sessions.map (fun p => (p.1, .jstr p.2))))])
    ++ (if s.byok = [] then [] else
          [("byok", .jobj (s.byok.map (fun p => (p.1, byokJson p.2))))])

/-- The JSON document SaveSettings writes. -/
def saveJson (s : Settings) : JVal :=
  .jobj (saveFields s)

/-- State of the settings file on disk: absent, present but unparsable
(the stream read throws), or present with parsed content. -/
inductive FileState where
  | absent
  | malformed
  | content (j : JVal)

/-- SaveSettings: rewrites the settings file with the serialized record
(best effort; the write itself is modelled as succeeding). -/
def SaveSettings (s : Settings) : FileState :=
  .content (saveJson s)

/-! ## LoadSettings (src/settings.cpp, lines 49-129)

The C++ reader mutates a default-constructed Settings field by field inside
one try block; a typed get that throws aborts the remaining fields but keeps
every assignment already made.  Each step below returns ok on completion and
error carrying the partially-updated record when its get throws. -/

/-- Reading default_provider: a non-string value throws; an unknown provider
name is swallowed by the inner catch and keeps the default. -/
def stepDP (fs : List (String × JVal)) (s : Settings) : Except Settings Settings :=
  match alookup fs "default_provider" with
  | none => .ok s
  | some v =>
    match jGetStr v with
    | none => .error s
    | some str =>
      match ParseProviderType str with
      | .ok p => .ok { s with default_provider := p }
      | .error _ => .ok s

/-- Reading custom_prompt: a non-string value throws. -/
def stepCP (fs : List (String × JVal)) (s : Settings) : Except Settings Settings :=
  match alookup fs "custom_prompt" with
  | none => .ok s
  | some v =>
    match jGetStr v with
    | none => .error s
    | some str => .ok { s with custom_prompt := str }

/-- Reading response_timeout_ms: a non-integer value throws. -/
def stepTO (fs : List (String × JVal)) (s : Settings) : Except Settings Settings :=
  match alookup fs "response_timeout_ms" with
  | none => .ok s
  | some v =>
    match jGetInt v with
    | none => .error s
    | some n => .ok { s with response_timeout_ms := n }

/-- Iterating a JSON map and decoding each value, inserting entry by entry;
a value that fails to decode throws, keeping the entries inserted so far. -/
def loadMapGo {α : Type} (get : JVal → Option α) :
    List (String × α) → List (String × JVal) →
    Except (List (String × α)) (List (String × α))
  | acc, [] => .ok acc
  | acc, (k, v) :: rest =>
    match get v with
    | none => .error acc
    | some a => loadMapGo get (aset acc k a) rest

/-- Reading the sessions map: each value must be a string. -/
def stepSessions (fs : List (String × JVal)) (s : Settings) : Except Settings Settings :=
  match alookup fs "sessions" with
  | none => .ok s
  | some v =>
    match loadMapGo jGetStr s.sessions (jItems v) with
    | .ok m => .ok { s with sessions := m }
    | .error m => .error { s with sessions := m }

/-- Reading an optional typed field of one BYOK JSON object: absent keeps
the default (inner some none); present with the wrong shape throws (none). -/
def getOptField {α : Type} (fs : List (String × JVal)) (k : String)
    (get : JVal → Option α) : Option (Option α) :=
  match alookup fs k with
  | none => some none
  | some w =>
    match get w with
    | none => none
    | some x => some (some x)

/-- Decoding one BYOK record: each present field must have the right shape,
otherwise the record is abandoned (the local variable is discarded by the
throw); absent fields keep the struct defaults. -/
def parseByokEntry (v : JVal) : Option BYOKSettings :=
  let fs := jFields v
  do
    let en ← getOptField fs "enabled" jGetBool
    let ak ← getOptField fs "api_key" jGetStr
    let bu ← getOptField fs "base_url" jGetStr
    let md ← getOptField fs "model" jGetStr
    let pt ← getOptField fs "provider_type" jGetStr
    let tm ← getOptField fs "timeout_ms" jGetInt
    pure { enabled := en.getD false, api_key := ak.getD "", base_url := bu.getD "",
           model := md.getD "", provider_type := pt.getD "", timeout_ms := tm.getD 0 }

/-- Reading the byok map: each entry decoded as a BYOK record. -/
def stepByok (fs : List (String × JVal)) (s : Settings) : Except Settings Settings :=
  match alookup fs "byok" with
  | none => .ok s
  | some v =>
    match loadMapGo parseByokEntry s.byok (jItems v) with
    | .ok m => .ok { s with byok := m }
    | .error m => .error { s with byok := m }

/-- The field-by-field reads of a parsed JSON document in program order,
each throw short-circuiting the rest. -/
def stepAll (fs : List (String × JVal)) : Except Settings Settings :=
  match stepDP fs {} with
  | .error s => .error s
  | .ok s =>
    match stepCP fs s with
    | .error s => .error s
    | .ok s =>
      match stepTO fs s with
      | .error s => .error s
      | .ok s =>
        match stepSessions fs s with
        | .error s => .error s
        | .ok s => stepByok fs s

/-- The whole field-by-field read of a parsed JSON document; the surrounding
catch turns a mid-way throw into keeping whatever was assigned so far. -/
def loadFromJson (j : JVal) : Settings :=
  match stepAll (jFields j) with
  | .ok s => s
  | .error s => s

/-- LoadSettings: never fails.  An absent file yields the defaults and
writes them back; an unparsable file yields the defaults and leaves the file
as it is (the catch swallows the error without writing); a parsed file is
read field by field.  Returns the settings together with the resulting file
state. -/
def LoadSettings : FileState → Settings × FileState
  | .absent => ({}, SaveSettings {})
  | .malformed => ({}, .malformed)
  | .content j => (loadFromJson j, .content j)

/-- kSystemPrompt from src/system_prompt.hpp: the fixed built-in system
prompt text. -/
def kSystemPrompt : String :=
  "You are LLDB Copilot, an expert debugging assistant operating inside an active LLDB debugging session.\n\nYou are connected to a live debug target - this could be a running process, a crashed process, or a core dump. Your primary tool is dbg_exec, which executes LLDB commands exactly as if the user typed them.\n\nIMPORTANT: Always use dbg_exec to investigate. Never guess or speculate - run debugger commands to get actual state. Based on the user's question, determine what information you need and query the debugger accordingly.\n\n## Expression Evaluation\nUse LLDB's built-in expression evaluator for calculations - don't compute manually:\n- expression <expr> - Evaluate C/C++/ObjC expression (aliases: p, print, expr)\n- p/x <expr> - Print in hexadecimal\n- p/d <expr> - Print in decimal\n- p/t <expr> - Print in binary\n- p <var> - Print variable value\n- p (int)$rax + (int)$rbx - Arithmetic on registers\n\n## Disassembly\n- disassemble -p - Disassemble at current PC\n- disassemble -f - Disassemble entire current function\n- disassemble -n <name> - Disassemble function by name\n- disassemble -a <addr> - Disassemble at address\n- disassemble -s <addr> -c <count> - Disassemble count instructions from addr\n- disassemble -b - Show opcode bytes\n\nTo find function boundaries: `disassemble -f` shows the entire function, or use `image lookup -n <name>` to find address range.\n\n## Stack Frames & Local Variables\n- bt - Backtrace current thread\n- bt all - Backtrace all threads\n- frame select <n> - Switch to frame n (or: f <n>)\n- frame variable - Show all locals in current frame (alias: fr v)\n- frame variable <name> - Show specific variable\n- frame variable -T - Show variables with types\n- frame variable -L - Show variables with locations\n- frame info - Show current frame info\n\nWorkflow for examining a specific frame:\n1. Use `bt` to see the stack\n2. Use `frame select <n>` to select the frame of interest\n3. Use `frame variable -T` to see locals with types\n4. Use `p <var>` to inspect specific variables\n\n## Symbol Lookup\n- image lookup -n <name> - Find symbol by name\n- image lookup -a <addr> - Find symbol at address\n- image lookup -r -n <regex> - Find symbols matching regex\n- image list - List all loaded modules/libraries\n- image dump symtab <module> - Dump symbol table\n- target modules lookup -a <addr> - Detailed module lookup\n\n## Memory Examination\n- memory read <addr> - Read memory (alias: x)\n- memory read -fx <addr> - Read as hex words\n- memory read -c <count> <addr> - Read count bytes\n- memory read -s <size> <addr> - Read with element size (1,2,4,8)\n- x/16xb <addr> - Read 16 bytes as hex (gdb-style)\n- x/4xg <addr> - Read 4 quadwords as hex\n- x/s <addr> - Read as C string\n\n## Type Display\n- type lookup <typename> - Show type definition\n- p *(struct foo*)0x<addr> - Cast and display structure\n- frame variable -T - Show locals with their types\n- target variable -T - Show globals with types\n\n## Common Commands\n- bt, bt all - Backtrace (current thread, all threads)\n- thread list - List all threads\n- thread select <n> - Switch to thread\n- register read - Show all registers\n- register read <reg> - Show specific register (e.g., register read rax)\n- process status - Process state\n- image list - Loaded modules/libraries\n\n## Pseudo-Registers\n- $pc / $rip - Program counter / instruction pointer\n- $sp / $rsp - Stack pointer\n- $fp / $rbp - Frame pointer\n- $rax, $rbx, etc. - General purpose registers\n- $arg1, $arg2, ... - Function arguments (if available)\n\n## Decompilation / Reverse Engineering\nWhen asked to \"decompile\" or \"reverse engineer\" a function:\n1. Use `disassemble -f` or `disassemble -n <name>` to get full disassembly\n2. Use `frame variable -T` to gather parameter and local variable types if stopped\n3. Use `type lookup` on relevant structures to understand data layouts\n4. Use `image lookup -n` patterns to find related symbols\n5. Analyze the assembly and produce best-effort C/C++ pseudocode\n\nFor decompilation, identify:\n- Function prologue/epilogue patterns\n- Calling convention (x64: rdi, rsi, rdx, rcx, r8, r9; ARM64: x0-x7)\n- Local variable stack allocations\n- Control flow (jumps, loops, conditionals)\n- API calls and their parameters\n\nProvide pseudocode that captures the logic, using descriptive variable names inferred from usage patterns.\n\n## Direct Command Execution\nUsers may pass debugger commands directly as their query:\n- \"bt\" - Execute `bt` and explain the output\n- \"register read\" - Execute `register read` and explain\n- \"disassemble -f\" - Execute and explain the disassembly\n\nRecognition patterns:\n- Query starts with a known command (bt, frame, thread, register, memory, x, p, disassemble, image, etc.)\n- Query looks like a command rather than a natural language question\n\nWhen you recognize a command:\n1. Execute it via dbg_exec\n2. Present the output\n3. Explain what it shows\n\nThe user may also use an explicit `!` prefix to force execution:\n- \"!bt all\" - The leading `!` explicitly means \"run this command\"\n\nStrip the leading `!` when executing (e.g., \"!bt\" becomes \"bt\").\n\nIf ambiguous, prefer executing as a command. Users asking questions typically use natural language.\n\n## Shellcode / Suspicious Memory Detection\nWhen asked to find shellcode, injected code, or suspicious memory (e.g., \"copilot any shellcode?\"):\n\n1. Enumerate memory regions:\n   - memory region --all - List all regions with permissions\n   - image list - List loaded images/modules\n\n2. Identify suspicious regions:\n   - Regions with rwx (read-write-execute) permissions\n   - Executable anonymous memory not backed by a file\n   - Executable regions outside known module ranges\n\n3. Examine suspicious regions:\n   - disassemble -s <addr> -c 30 - Check for valid code\n   - memory read <addr> -c 64 - Look for shellcode patterns\n   - image lookup -a <addr> - Verify if address belongs to a module\n\n4. Common shellcode indicators:\n   - Position-independent code patterns (call/pop for RIP-relative addressing)\n   - Syscall instructions (syscall on x64, svc on ARM64)\n   - Encoded/encrypted payloads followed by decoder stub\n\nWorkflow: memory region --all → find rwx/rx anonymous regions → cross-ref with image list → disassemble suspicious → report findings.\n\n## Crash Analysis Workflow\n1. bt - Get the crash stack\n2. frame variable - Check locals at crash site\n3. register read - Check register state\n4. disassemble -p - Examine code at crash\n5. image lookup -a $pc - Get symbol info\n\n## Approach\n1. Run commands to understand the current state\n2. Use expression evaluation for calculations, not manual math\n3. Examine relevant registers, memory, and variables\n4. Follow the evidence - run more commands as needed\n5. Explain your findings clearly\n\nBe concise. Show your reasoning."

/-- GetFullSystemPrompt from src/system_prompt.hpp: the built-in prompt,
with the custom prompt appended after a blank line when non-empty. -/
def GetFullSystemPrompt (custom_prompt : String) : String :=
  if custom_prompt = "" then kSystemPrompt
  else kSystemPrompt ++ "\n\n" ++ custom_prompt

/-! ## Event trace

Calls into the external libagents runtime and the debugger shim, recorded
so that claims about which external operations run can be stated. -/

/-- One observable call into an external collaborator. -/
inductive Ev where
  | shutdown
  | create (p : ProviderType)
  | register_tool
  | set_byok
  | set_timeout (ms : Int)
  | set_session_id (sid : String)
  | init_call (p : ProviderType)
  | clear_session
  | query (msg : String)
  | get_session_id
  | exec_dbg (cmd : String)
  deriving DecidableEq

/-! ## Agent session record (src/lldb_commands.cpp, struct AgentSession) -/

/-- Observable configuration of a live libagents agent instance: what the
surrounding code has applied to it. -/
structure AgentObj where
  provider : ProviderType
  tool_registered : Bool := false
  byok_applied : Bool := false
  timeout_ms : Int := 0
  session_id : String := ""
  deriving DecidableEq

/-- AgentSession from src/lldb_commands.cpp: the process-wide transient
record.  The dbg pointer is modelled as a flag. -/
structure Session where
  agent : Option AgentObj := none
  provider : ProviderType := .Copilot
  provider_name : String := ""
  target : String := ""
  session_id : String := ""
  system_prompt : String := ""
  primed : Bool := false
  initialized : Bool := false
  host_ready : Bool := false
  aborted : Bool := false
  dbg : Bool := false
  deriving DecidableEq

/-- The whole mutable world a command invocation touches: the agent session,
the in-memory session store map, and the settings file on disk. -/
structure World where
  session : Session := {}
  store : List (String × String) := []
  file : FileState := .absent

/-- Outcomes of the external calls a run may make: whether agent creation
and initialization succeed per provider, the detail string of a failed
handshake, the result of a query (error means the query threw), the session
id the agent reports after a query, and the two output streams a debugger
command produces. -/
structure Env where
  create_ok : ProviderType → Bool
  init_ok : ProviderType → Bool
  init_detail : ProviderType → String
  query : String → Except String String
  session_id_of : String → String
  dbg_out : String → String × String

/-- ResetAgentSession from src/lldb_commands.cpp, lines 43-57: shutdown and
release the agent when one exists, and clear the transient fields.  The
provider enum, the aborted flag and the dbg pointer are not touched. -/
def ResetAgentSession (s : Session) : Session × List Ev :=
  ({ s with agent := none, initialized := false, host_ready := false,
            provider_name := "", session_id := "", system_prompt := "",
            primed := false, target := "" },
   if s.agent.isSome then [Ev.shutdown] else [])

/-! ## Session-ID store (src/session_store.cpp) -/

/-- SessionStore::MakeKey: target and provider joined by a pipe. -/
def SessionStore.MakeKey (target_name provider : String) : String :=
  target_name ++ "|" ++ provider

/-- SessionStore::GetSessionId: empty target or provider yields the empty
string; otherwise the stored id, or empty when absent. -/
def SessionStore.GetSessionId (store : List (String × String))
    (target_name provider : String) : String :=
  if target_name = "" ∨ provider = "" then ""
  else (alookup store (SessionStore.MakeKey target_name provider)).getD ""

/-- SessionStore::Save: reload the settings from disk, replace the sessions
map with the in-memory one, and write the file back. -/
def SessionStore.Save (store : List (String × String)) (file : FileState) : FileState :=
  SaveSettings { (LoadSettings file).1 with sessions := store }

/-- SessionStore::SetSessionId: a no-op when target or provider is empty;
otherwise insert the mapping and persist. -/
def SessionStore.SetSessionId (store : List (String × String)) (file : FileState)
    (target_name provider session_id : String) :
    List (String × String) × FileState :=
  if target_name = "" ∨ provider = "" then (store, file)
  else
    let store2 := aset store (SessionStore.MakeKey target_name provider) session_id
    (store2, SessionStore.Save store2 file)

/-- SessionStore::ClearSession: a no-op when target or provider is empty;
otherwise erase the mapping and persist. -/
def SessionStore.ClearSession (store : List (String × String)) (file : FileState)
    (target_name provider : String) :
    List (String × String) × FileState :=
  if target_name = "" ∨ provider = "" then (store, file)
  else
    let store2 := aerase store (SessionStore.MakeKey target_name provider)
    (store2, SessionStore.Save store2 file)

/-! ## The debugger shim and the registered tool -/

/-- LldbClient::ExecuteCommand from src/lldb_client.cpp, lines 25-48: run
the command, concatenate the normal and error streams (error after a newline
when both are present), and fall back to a placeholder when both are
empty. -/
def LldbClient.ExecuteCommand (env : Env) (command : String) : String :=
  let out := (env.dbg_out command).1
  let err := (env.dbg_out command).2
  let output := if out ≠ "" then out else ""
  let output := if err ≠ "" then (if output ≠ "" then output ++ "\n" ++ err else err)
                else output
  if output = "" then "(No output)" else output

/-- The dbg_exec tool callback built by BuildDebuggerTool
(src/lldb_commands.cpp, lines 59-76): short-circuit on the aborted flag,
error when no debugger client is bound, otherwise run the command through
the shim.  The trace records whether the shim ran. -/
def BuildDebuggerTool (env : Env) (session : Session) (command : String) :
    String × List Ev :=
  if session.aborted then ("(Aborted)", [])
  else if ¬ session.dbg then ("Error: No debugger client available", [])
  else (LldbClient.ExecuteCommand env command, [Ev.exec_dbg command])

/-! ## EnsureAgent (src/lldb_commands.cpp, lines 120-220) -/

/-- Result of EnsureAgent: the new world, the return value, the created
flag, the error string (empty when unset) and the external-call trace. -/
structure EnsureRes where
  w : World
  ready : Bool := false
  created : Bool := false
  err : String := ""
  trace : List Ev := []

/-- The common tail of EnsureAgent (lines 188-219): the prompt-refresh
guard, the target-change guard, and clearing the aborted flag. -/
def ensureTail (w : World) (settings : Settings) (target : String)
    (created : Bool) (trace : List Ev) : EnsureRes :=
  let s := w.session
  let updated := GetFullSystemPrompt settings.custom_prompt
  let s := if updated ≠ s.system_prompt
           then { s with system_prompt := updated, primed := false } else s
  let step :=
    if s.target = target then (s, ([] : List Ev))
    else
      let s1 := { s with target := target }
      if settings.byokUsable then ({ s1 with primed := false }, [])
      else
        let new_sid := SessionStore.GetSessionId w.store target s1.provider_name
        if new_sid ≠ s1.session_id then
          match s1.agent with
          | some a =>
            ({ s1 with agent := some { a with session_id := new_sid },
                       session_id := new_sid, primed := false },
             Ev.clear_session ::
               (if new_sid ≠ "" then [Ev.set_session_id new_sid] else []))
          | none => ({ s1 with primed := false }, [])
        else ({ s1 with primed := false }, [])
  { w := { w with session := { step.1 with aborted := false } },
    ready := true, created := created, err := "", trace := trace ++ step.2 }

/-- EnsureAgent from src/lldb_commands.cpp, lines 120-220: the provider
change guard, the build-if-absent step with BYOK, timeout and session-id
application and the initialization handshake, then the common tail. -/
def EnsureAgent (env : Env) (w : World) (settings : Settings) (target : String) :
    EnsureRes :=
  let s0 := { w.session with dbg := true }
  let reset :=
    if s0.agent.isSome ∧ s0.provider ≠ settings.default_provider
    then ResetAgentSession s0 else (s0, [])
  let s1 := reset.1
  let tr1 := reset.2
  match s1.agent with
  | some _ => ensureTail { w with session := s1 } settings target false tr1
  | none =>
    let p := settings.default_provider
    let pname := provider_type_name p
    let s2 := { s1 with provider := p, provider_name := pname }
    if ¬ env.create_ok p then
      { w := { w with session := s2 }, ready := false, created := false,
        err := "Failed to create agent", trace := tr1 ++ [Ev.create p] }
    else
      let byok_ok := settings.byokUsable
      let a0 : AgentObj :=
        { provider := p, tool_registered := true, byok_applied := byok_ok,
          timeout_ms := if settings.response_timeout_ms > 0
                        then settings.response_timeout_ms else 0 }
      let sid := if byok_ok then ""
                 else SessionStore.GetSessionId w.store target pname
      let s3 :=
        if byok_ok then
          { s2 with agent := some a0,
                    system_prompt := GetFullSystemPrompt settings.custom_prompt,
                    primed := false }
        else
          { s2 with agent := some { a0 with session_id := sid },
                    system_prompt := GetFullSystemPrompt settings.custom_prompt,
                    primed := false, session_id := sid }
      let tr2 := tr1 ++ [Ev.create p, Ev.register_tool]
                 ++ (if byok_ok then [Ev.set_byok] else [])
                 ++ (if settings.response_timeout_ms > 0
                     then [Ev.set_timeout settings.response_timeout_ms] else [])
                 ++ (if ¬ byok_ok ∧ sid ≠ "" then [Ev.set_session_id sid] else [])
      if ¬ env.init_ok p then
        let detail := env.init_detail p
        let msg := "Failed to initialize " ++ pname ++ " provider"
                   ++ (if detail = "" then "" else ": " ++ detail)
        let after := ResetAgentSession s3
        { w := { w with session := after.1 }, ready := false, created := false,
          err := msg, trace := tr2 ++ [Ev.init_call p] ++ after.2 }
      else
        ensureTail
          { w with session := { s3 with host_ready := true, initialized := true } }
          settings target true (tr2 ++ [Ev.init_call p])

/-! ## The copilot command (src/lldb_commands.cpp, CopilotCommand) -/

/-- Result of one copilot command invocation: the new world, success flag,
whether a fresh agent was reported created, the error text (empty when
none) and the external-call trace. -/
structure AskRes where
  w : World
  ok : Bool := false
  created : Bool := false
  err : String := ""
  trace : List Ev := []

/-- CopilotCommand::DoExecute from src/lldb_commands.cpp, lines 240-304:
reject an empty question, load the settings, ensure the agent, build the
outgoing message (system prompt prepended on the first unprimed turn), run
the query, mark the session primed, and persist any new session id unless
BYOK is usable. -/
def CopilotCommand_DoExecute (env : Env) (w : World) (target question : String) :
    AskRes :=
  if question = "" then
    { w := w, ok := false,
      err := "Usage: copilot <question>\n\nExamples:\n  copilot what is the call stack?\n  copilot explain this crash\n\nFor Copilot settings, use: agent help" }
  else
    let L := LoadSettings w.file
    let settings := L.1
    let w1 : World := { w with file := L.2 }
    let r := EnsureAgent env w1 settings target
    if ¬ r.ready then
      { w := r.w, ok := false, created := false,
        err := if r.err = "" then "Failed to initialize" else r.err,
        trace := r.trace }
    else
      let s := r.w.session
      let full_prompt := if s.primed ∨ s.system_prompt = "" then question
                         else s.system_prompt ++ "\n\n---\n\n" ++ question
      match env.query full_prompt with
      | .error e =>
        { w := r.w, ok := false, created := r.created, err := e,
          trace := r.trace ++ [Ev.query full_prompt] }
      | .ok _resp =>
        let s1 := { s with primed := true }
        let pname := provider_type_name settings.default_provider
        if settings.byokUsable then
          { w := { r.w with session := s1 }, ok := true, created := r.created,
            trace := r.trace ++ [Ev.query full_prompt] }
        else
          let nsid := env.session_id_of full_prompt
          let tr := r.trace ++ [Ev.query full_prompt, Ev.get_session_id]
          if nsid ≠ "" ∧ nsid ≠ s1.session_id then
            let sf := SessionStore.SetSessionId r.w.store r.w.file target pname nsid
            { w := { session := { s1 with session_id := nsid },
                     store := sf.1, file := sf.2 },
              ok := true, created := r.created, trace := tr }
          else
            { w := { r.w with session := s1 }, ok := true, created := r.created,
              trace := tr }

/-! ## The agent command (src/lldb_commands.cpp, AgentCommand) -/

/-- Result of one agent (control) command invocation. -/
structure CmdRes where
  w : World
  ok : Bool := false
  err : String := ""
  trace : List Ev := []

/-- The provider branch of AgentCommand::DoExecute (lines 371-397): show the
provider when no name is given; otherwise parse the name (an unknown name is
an error and mutates nothing), and on a genuine switch persist the new
default provider and tear the live agent session down. -/
def AgentCommand_provider (w : World) (rest : String) : CmdRes :=
  let L := LoadSettings w.file
  let settings := L.1
  let w1 : World := { w with file := L.2 }
  if rest = "" then { w := w1, ok := true }
  else
    match ParseProviderType rest with
    | .error msg => { w := w1, ok := false, err := msg }
    | .ok ty =>
      if ty ≠ settings.default_provider then
        let settings2 := { settings with default_provider := ty }
        let file2 := SaveSettings settings2
        let after := ResetAgentSession w1.session
        { w := { session := after.1, store := w1.store, file := file2 },
          ok := true, trace := after.2 }
      else { w := w1, ok := true }

/-- std::stoi on the timeout argument: skip leading whitespace, an optional
sign, then a non-empty digit run (trailing text ignored).  No digits means
the invalid-argument throw, and a converted value outside the int range
[-2147483648, 2147483647] means the out-of-range throw; both are caught by
the surrounding catch and modelled as none. -/
def stoi (str : String) : Option Int :=
  let cs := str.toList.dropWhile (fun c => c = ' ' ∨ c = '\t' ∨ c = '\n' ∨ c = '\r')
  let signed : Int × List Char :=
    match cs with
    | '-' :: rest => (-1, rest)
    | '+' :: rest => (1, rest)
    | _ => (1, cs)
  let digits := signed.2.takeWhile Char.isDigit
  if digits = [] then none
  else
    let v := signed.1 * Int.ofNat (digits.foldl (fun n c => n * 10 + (c.toNat - 48)) 0)
    if v < -2147483648 ∨ 2147483647 < v then none else some v

/-- The timeout branch of AgentCommand::DoExecute (lines 444-473): show the
timeout when no value is given; reject an unparsable value; reject a value
below 1000 ms without mutating anything; otherwise persist the new timeout
and apply it to the live agent when one exists. -/
def AgentCommand_timeout (w : World) (rest : String) : CmdRes :=
  let L := LoadSettings w.file
  let settings := L.1
  let w1 : World := { w with file := L.2 }
  if rest = "" then { w := w1, ok := true }
  else
    match stoi rest with
    | none => { w := w1, ok := false, err := "Invalid timeout value. Use milliseconds." }
    | some ms =>
      if ms < 1000 then
        { w := w1, ok := false, err := "Timeout must be at least 1000 ms (1 second)." }
      else
        let settings2 := { settings with response_timeout_ms := ms }
        let file2 := SaveSettings settings2
        match w1.session.agent with
        | some a =>
          { w := { session := { w1.session with agent := some { a with timeout_ms := ms } },
                   store := w1.store, file := file2 },
            ok := true, trace := [Ev.set_timeout ms] }
        | none => { w := { w1 with file := file2 }, ok := true }

/-! ## Derived notions used by the statements -/

/-- What reading back a written sessions map produces: the entries inserted
one by one in file order. -/
def sessionsRT (m : List (String × String)) : List (String × String) :=
  m.foldl (fun acc p => aset acc p.1 p.2) []

/-- A BYOK record after one save-then-load: a non-positive timeout collapses
to 0 (it is omitted from the file); everything else survives. -/
def byokNorm (b : BYOKSettings) : BYOKSettings :=
  { b with timeout_ms := if 0 < b.timeout_ms then b.timeout_ms else 0 }

/-- What reading back a written byok map produces. -/
def byokRT (m : List (String × BYOKSettings)) : List (String × BYOKSettings) :=
  m.foldl (fun acc p => aset acc p.1 (byokNorm p.2)) []

/-- Every key of the store is a non-empty target joined to a non-empty
provider by the pipe separator. -/
def GoodKeys (store : List (String × String)) : Prop :=
  ∀ p ∈ store, ∃ t q, t ≠ "" ∧ q ≠ "" ∧ p.1 = SessionStore.MakeKey t q

/-- The no-agent state of the session record with the transient fields
clear (the provider enum and provider name are not part of it, see the
invariant theorem). -/
def NoAgentClean (s : Session) : Prop :=
  s.agent = none ∧ s.initialized = false ∧ s.session_id = "" ∧
  s.system_prompt = "" ∧ s.primed = false ∧ s.target = ""

/-- The agent-session invariant: no agent (with clear transient state), or
a live agent whose initialization succeeded. -/
def SessionInv (s : Session) : Prop :=
  NoAgentClean s ∨ (s.agent.isSome = true ∧ s.initialized = true)

/-- The messages sent to the agent, in order, read off a trace. -/
def queries : List Ev → List String
  | [] => []
  | Ev.query m :: rest => m :: queries rest
  | _ :: rest => queries rest

/-! ## Helper lemmas: association lists -/

theorem alookup_aset_self {α : Type} (m : List (String × α)) (k : String) (v : α) :
    alookup (aset m k v) k = some v := by
  induction m with
  | nil => simp [aset, alookup]
  | cons hd tl ih =>
    by_cases h : hd.1 = k
    · simp [aset, h, alookup]
    · simp [aset, h, alookup, ih]

theorem alookup_aset_ne {α : Type} (m : List (String × α)) {k k2 : String} (v : α)
    (h : k ≠ k2) : alookup (aset m k v) k2 = alookup m k2 := by
  induction m with
  | nil => simp [aset, alookup, h]
  | cons hd tl ih =>
    by_cases h1 : hd.1 = k
    · simp [aset, h1, alookup, h]
    · simp [aset, h1, alookup, ih]

theorem alookup_eq_none_of_not_mem {α : Type} {m : List (String × α)} {k : String}
    (h : k ∉ m.map Prod.fst) : alookup m k = none := by
  induction m with
  | nil => rfl
  | cons hd tl ih =>
    simp only [List.map_cons, List.mem_cons] at h
    push_neg at h
    have hne : ¬ hd.1 = k := fun he => h.1 he.symm
    simp [alookup, hne, ih h.2]

theorem mem_aset {α : Type} {m : List (String × α)} {k : String} {v : α} {p : String × α}
    (h : p ∈ aset m k v) : p ∈ m ∨ p.1 = k := by
  induction m with
  | nil =>
    simp only [aset, List.mem_singleton] at h
    right; rw [h]
  | cons hd tl ih =>
    by_cases h1 : hd.1 = k
    · rw [aset, if_pos h1] at h
      rcases List.mem_cons.mp h with h2 | h2
      · right; rw [h2]
      · left; exact List.mem_cons_of_mem _ h2
    · rw [aset, if_neg h1] at h
      rcases List.mem_cons.mp h with h2 | h2
      · left; rw [h2]; exact List.mem_cons_self _ _
      · rcases ih h2 with h3 | h3
        · left; exact List.mem_cons_of_mem _ h3
        · right; exact h3

theorem mem_of_alookup_some {α : Type} {m : List (String × α)} {k : String} {v : α}
    (h : alookup m k = some v) : (k, v) ∈ m := by
  induction m with
  | nil => simp [alookup] at h
  | cons hd tl ih =>
    obtain ⟨hk, hv⟩ := hd
    by_cases he : hk = k
    · rw [alookup, if_pos he] at h
      injection h with h2
      rw [← he, ← h2]
      exact List.mem_cons_self _ _
    · rw [alookup, if_neg he] at h
      exact List.mem_cons_of_mem _ (ih h)

theorem alookup_foldl_aset {α β : Type} (dec : β → α)
    (g : List (String × α) → String × β → List (String × α))
    (hg : ∀ m p, g m p = aset m p.1 (dec p.2)) :
    ∀ (l : List (String × β)) (acc : List (String × α)) (k : String),
      nodupKeys l →
      alookup (l.foldl g acc) k =
        (match alookup l k with
         | some v => some (dec v)
         | none => alookup acc k) := by
  intro l
  induction l with
  | nil => intro acc k _; simp [alookup]
  | cons hd tl ih =>
    intro acc k hnd
    obtain ⟨h1, h2⟩ := hd
    have hnd2 : nodupKeys tl := by
      simpa [nodupKeys] using (List.nodup_cons.mp hnd).2
    have hhd : h1 ∉ tl.map Prod.fst := by
      simpa [nodupKeys] using (List.nodup_cons.mp hnd).1
    simp only [List.foldl_cons]
    rw [hg, ih _ _ hnd2]
    by_cases hk : h1 = k
    · subst hk
      rw [alookup_eq_none_of_not_mem hhd]
      simp [alookup, alookup_aset_self]
    · rw [alookup, if_neg hk]
      cases alookup tl k with
      | some v => simp
      | none => simp [alookup_aset_ne _ _ hk]

/-! ## Helper lemmas: save-then-load -/

theorem ParseProviderType_name (p : ProviderType) :
    ParseProviderType (provider_type_name p) = .ok p := by
  cases p <;> rfl

theorem alookup_saveFields_dp (s : Settings) :
    alookup (saveFields s) "default_provider" =
      some (.jstr (provider_type_name s.default_provider)) := by
  simp [saveFields, alookup]

theorem alookup_saveFields_cp (s : Settings) :
    alookup (saveFields s) "custom_prompt" =
      (if s.custom_prompt = "" then none else some (.jstr s.custom_prompt)) := by
  unfold saveFields
  split_ifs <;> simp_all [alookup]

theorem alookup_saveFields_to (s : Settings) :
    alookup (saveFields s) "response_timeout_ms" =
      (if 0 < s.response_timeout_ms then some (.jint s.response_timeout_ms) else none) := by
  unfold saveFields
  split_ifs <;> simp_all [alookup]

theorem alookup_saveFields_sessions (s : Settings) :
    alookup (saveFields s) "sessions" =
      (if s.sessions = [] then none
       else some (.jobj (s.sessions.map (fun p => (p.1, .jstr p.2))))) := by
  unfold saveFields
  split_ifs <;> simp_all [alookup]

theorem alookup_saveFields_byok (s : Settings) :
    alookup (saveFields s) "byok" =
      (if s.byok = [] then none
       else some (.jobj (s.byok.map (fun p => (p.1, byokJson p.2))))) := by
  unfold saveFields
  split_ifs <;> simp_all [alookup]

theorem loadMapGo_map {α β : Type} (get : JVal → Option α) (enc : β → JVal) (dec : β → α)
    (henc : ∀ b, get (enc b) = some (dec b)) :
    ∀ (l : List (String × β)) (acc : List (String × α)),
      loadMapGo get acc (l.map (fun p => (p.1, enc p.2))) =
        .ok (l.foldl (fun m p => aset m p.1 (dec p.2)) acc) := by
  intro l
  induction l with
  | nil => intro acc; rfl
  | cons hd tl ih => intro acc; simp [loadMapGo, henc, ih]

theorem alookup_byokFields_enabled (b : BYOKSettings) :
    alookup (byokFields b) "enabled" = some (.jbool b.enabled) := by
  simp [byokFields, alookup]

theorem alookup_byokFields_api_key (b : BYOKSettings) :
    alookup (byokFields b) "api_key" =
      (if b.api_key = "" then none else some (.jstr b.api_key)) := by
  unfold byokFields
  split_ifs <;> simp_all [alookup]

theorem alookup_byokFields_base_url (b : BYOKSettings) :
    alookup (byokFields b) "base_url" =
      (if b.base_url = "" then none else some (.jstr b.base_url)) := by
  unfold byokFields
  split_ifs <;> simp_all [alookup]

theorem alookup_byokFields_model (b : BYOKSettings) :
    alookup (byokFields b) "model" =
      (if b.model = "" then none else some (.jstr b.model)) := by
  unfold byokFields
  split_ifs <;> simp_all [alookup]

theorem alookup_byokFields_ptype (b : BYOKSettings) :
    alookup (byokFields b) "provider_type" =
      (if b.provider_type = "" then none else some (.jstr b.provider_type)) := by
  unfold byokFields
  split_ifs <;> simp_all [alookup]

theorem alookup_byokFields_timeout (b : BYOKSettings) :
    alookup (byokFields b) "timeout_ms" =
      (if 0 < b.timeout_ms then some (.jint b.timeout_ms) else none) := by
  unfold byokFields
  split_ifs <;> simp_all [alookup]

theorem getOptField_of_lookup_none {α : Type} {fs : List (String × JVal)} {k : String}
    (get : JVal → Option α) (h : alookup fs k = none) :
    getOptField fs k get = some none := by
  simp [getOptField, h]

theorem getOptField_of_lookup_some {α : Type} {fs : List (String × JVal)} {k : String}
    {v : JVal} {x : α} (get : JVal → Option α) (h : alookup fs k = some v)
    (hg : get v = some x) : getOptField fs k get = some (some x) := by
  simp [getOptField, h, hg]

theorem parseByokEntry_byokJson (b : BYOKSettings) :
    parseByokEntry (byokJson b) = some (byokNorm b) := by
  unfold parseByokEntry
  rw [show jFields (byokJson b) = byokFields b from rfl]
  by_cases h1 : b.api_key = "" <;> by_cases h2 : b.base_url = "" <;>
  by_cases h3 : b.model = "" <;> by_cases h4 : b.provider_type = "" <;>
  by_cases h5 : 0 < b.timeout_ms <;>
  · simp only [bind, Option.bind, getOptField,
      alookup_byokFields_enabled, alookup_byokFields_api_key, alookup_byokFields_base_url,
      alookup_byokFields_model, alookup_byokFields_ptype, alookup_byokFields_timeout,
      h1, h2, h3, h4, h5, if_true, if_false, ite_true, ite_false,
      jGetBool, jGetStr, jGetInt, Option.getD, byokNorm, pure]

theorem stepDP_chain (s : Settings) :
    stepDP (saveFields s) {} =
      .ok { default_provider := s.default_provider } := by
  rw [stepDP, alookup_saveFields_dp]
  simp [jGetStr, ParseProviderType_name]

theorem stepCP_chain (s : Settings) :
    stepCP (saveFields s) { default_provider := s.default_provider } =
      .ok { default_provider := s.default_provider,
            custom_prompt := s.custom_prompt } := by
  rw [stepCP, alookup_saveFields_cp]
  by_cases hc : s.custom_prompt = ""
  · simp [hc]
  · simp [hc, jGetStr]

theorem stepTO_chain (s : Settings) :
    stepTO (saveFields s)
        { default_provider := s.default_provider, custom_prompt := s.custom_prompt } =
      .ok { default_provider := s.default_provider, custom_prompt := s.custom_prompt,
            response_timeout_ms :=
              if 0 < s.response_timeout_ms then s.response_timeout_ms else 120000 } := by
  rw [stepTO, alookup_saveFields_to]
  by_cases ht : 0 < s.response_timeout_ms
  · simp [ht, jGetInt]
  · simp [ht]

theorem stepSessions_chain (s : Settings) :
    stepSessions (saveFields s)
        { default_provider := s.default_provider, custom_prompt := s.custom_prompt,
          response_timeout_ms :=
            if 0 < s.response_timeout_ms then s.response_timeout_ms else 120000 } =
      .ok { default_provider := s.default_provider, custom_prompt := s.custom_prompt,
            response_timeout_ms :=
              if 0 < s.response_timeout_ms then s.response_timeout_ms else 120000,
            sessions := sessionsRT s.sessions } := by
  rw [stepSessions, alookup_saveFields_sessions]
  by_cases hs : s.sessions = []
  · simp [hs, sessionsRT]
  · rw [if_neg hs]
    have := loadMapGo_map jGetStr JVal.jstr (fun v => v) (fun _ => rfl) s.sessions []
    simp only [jItems]
    rw [this]
    rfl

theorem stepByok_chain (s : Settings) :
    stepByok (saveFields s)
        { default_provider := s.default_provider, custom_prompt := s.custom_prompt,
          response_timeout_ms :=
            if 0 < s.response_timeout_ms then s.response_timeout_ms else 120000,
          sessions := sessionsRT s.sessions } =
      .ok { default_provider := s.default_provider, custom_prompt := s.custom_prompt,
            response_timeout_ms :=
              if 0 < s.response_timeout_ms then s.response_timeout_ms else 120000,
            sessions := sessionsRT s.sessions,
            byok := byokRT s.byok } := by
  rw [stepByok, alookup_saveFields_byok]
  by_cases hs : s.byok = []
  · simp [hs, byokRT]
  · rw [if_neg hs]
    have := loadMapGo_map parseByokEntry byokJson byokNorm parseByokEntry_byokJson
      s.byok []
    simp only [jItems]
    rw [this]
    rfl

/-- The composite save-then-load computation: scalar fields survive (a
non-positive timeout falls back to the 120000 default), the maps come back
re-inserted in file order. -/
theorem loadFromJson_saveJson (s : Settings) :
    loadFromJson (saveJson s) =
      { default_provider := s.default_provider,
        custom_prompt := s.custom_prompt,
        response_timeout_ms :=
          if 0 < s.response_timeout_ms then s.response_timeout_ms else 120000,
        sessions := sessionsRT s.sessions,
        byok := byokRT s.byok } := by
  have hf : jFields (saveJson s) = saveFields s := rfl
  unfold loadFromJson stepAll
  rw [hf, stepDP_chain]
  simp only [stepCP_chain, stepTO_chain, stepSessions_chain, stepByok_chain]

theorem load_save_dp (s : Settings) :
    (loadFromJson (saveJson s)).default_provider = s.default_provider := by
  rw [loadFromJson_saveJson]

theorem load_save_cp (s : Settings) :
    (loadFromJson (saveJson s)).custom_prompt = s.custom_prompt := by
  rw [loadFromJson_saveJson]

theorem load_save_to (s : Settings) (h : 0 < s.response_timeout_ms) :
    (loadFromJson (saveJson s)).response_timeout_ms = s.response_timeout_ms := by
  rw [loadFromJson_saveJson]; simp [h]

theorem load_save_sessions (s : Settings) (h : nodupKeys s.sessions) (k : String) :
    alookup (loadFromJson (saveJson s)).sessions k = alookup s.sessions k := by
  rw [loadFromJson_saveJson]
  show alookup (sessionsRT s.sessions) k = _
  rw [sessionsRT,
    alookup_foldl_aset (fun v => v) _ (fun m p => rfl) s.sessions [] k h]
  cases alookup s.sessions k <;> simp [alookup]

theorem load_save_byok (s : Settings) (h : nodupKeys s.byok)
    (h2 : ∀ p ∈ s.byok, 0 ≤ p.2.timeout_ms) (k : String) :
    alookup (loadFromJson (saveJson s)).byok k = alookup s.byok k := by
  rw [loadFromJson_saveJson]
  show alookup (byokRT s.byok) k = _
  rw [byokRT,
    alookup_foldl_aset byokNorm _ (fun m p => rfl) s.byok [] k h]
  cases hm : alookup s.byok k with
  | none => simp [alookup]
  | some b =>
    have hb : (k, b) ∈ s.byok := mem_of_alookup_some hm
    have ht : (0 : Int) ≤ b.timeout_ms := h2 _ hb
    have harg : (if 0 < b.timeout_ms then b.timeout_ms else 0) = b.timeout_ms := by
      split_ifs with h4
      · rfl
      · omega
    have hn : byokNorm b = b := by
      unfold byokNorm
      rw [harg]
    simp [hn]

/-! ## Helper lemmas: strings, prompts, files -/

theorem append_ne_empty (a b : String) (h : a ≠ "") : a ++ b ≠ "" := by
  intro hc
  apply h
  have hd := congrArg String.data hc
  simp only [String.data_append] at hd
  have : a.data = [] := (List.append_eq_nil.mp hd).1
  cases a
  simp_all

theorem kSystemPrompt_ne : kSystemPrompt ≠ "" := by
  intro h
  have hd := congrArg String.data h
  cases hh : kSystemPrompt.data with
  | nil =>
    have : kSystemPrompt.data ≠ [] := by decide
    exact this hh
  | cons c cs => rw [hh] at hd; cases hd

theorem GetFullSystemPrompt_ne (c : String) : GetFullSystemPrompt c ≠ "" := by
  unfold GetFullSystemPrompt
  split_ifs
  · exact kSystemPrompt_ne
  · exact append_ne_empty _ _ (append_ne_empty _ _ kSystemPrompt_ne)

theorem LoadSettings_SaveSettings (s : Settings) :
    LoadSettings (SaveSettings s) = (loadFromJson (saveJson s), SaveSettings s) := rfl

theorem LoadSettings_preserves_file (f : FileState) (h : f ≠ FileState.absent) :
    (LoadSettings f).2 = f := by
  cases f with
  | absent => exact absurd rfl h
  | malformed => rfl
  | content j => rfl

/-- Loading the file state a LoadSettings call leaves behind gives the same
default provider and custom prompt as the first load. -/
theorem LoadSettings_stable (f : FileState) :
    (LoadSettings (LoadSettings f).2).1.default_provider =
      (LoadSettings f).1.default_provider ∧
    (LoadSettings (LoadSettings f).2).1.custom_prompt =
      (LoadSettings f).1.custom_prompt := by
  cases f with
  | absent =>
    constructor
    · exact load_save_dp {}
    · exact load_save_cp {}
  | malformed => exact ⟨rfl, rfl⟩
  | content j => exact ⟨rfl, rfl⟩

/-! ## C9: the debugger shim output contract -/

/-- C9: for every command, ExecuteCommand totally returns text: the literal
placeholder when both streams are empty; normal output, a newline and error
output when both are present; and the one non-empty stream alone
otherwise. -/
theorem ExecuteCommand_cases (env : Env) (command : String) :
    LldbClient.ExecuteCommand env command =
      (if (env.dbg_out command).1 = "" ∧ (env.dbg_out command).2 = "" then "(No output)"
       else if (env.dbg_out command).1 ≠ "" ∧ (env.dbg_out command).2 ≠ "" then
         (env.dbg_out command).1 ++ "\n" ++ (env.dbg_out command).2
       else if (env.dbg_out command).1 = "" then (env.dbg_out command).2
       else (env.dbg_out command).1) := by
  unfold LldbClient.ExecuteCommand
  by_cases h1 : (env.dbg_out command).1 = "" <;>
    by_cases h2 : (env.dbg_out command).2 = ""
  · simp [h1, h2]
  · simp [h1, h2]
  · simp [h1, h2]
  · simp [h1, h2, append_ne_empty _ _ (append_ne_empty _ _ h1)]

/-! ## C8: the aborted flag short-circuits the tool callback -/

/-- C8: whenever the aborted flag is set at the moment the dbg_exec tool
callback runs, it returns the fixed aborted marker and the debugger shim is
never invoked (the trace is empty). -/
theorem BuildDebuggerTool_aborted (env : Env) (session : Session) (command : String)
    (h : session.aborted = true) :
    BuildDebuggerTool env session command = ("(Aborted)", []) ∧
    Ev.exec_dbg command ∉ (BuildDebuggerTool env session command).2 := by
  constructor
  · simp [BuildDebuggerTool, h]
  · simp [BuildDebuggerTool, h]

theorem BuildDebuggerTool_aborted_witness :
    BuildDebuggerTool ⟨fun _ => true, fun _ => true, fun _ => "", fun _ => Except.ok "",
        fun _ => "", fun _ => ("", "")⟩ { aborted := true } "bt" = ("(Aborted)", []) :=
  (BuildDebuggerTool_aborted _ _ _ rfl).1

/-! ## C6: session store no-ops and key shape -/

/-- C6: an empty target or provider makes GetSessionId return the empty
string and makes SetSessionId and ClearSession leave both the map and the
persisted file untouched; and both mutating operations preserve the
invariant that every stored key is a non-empty target joined to a non-empty
provider. -/
theorem SessionStore_empty_noop_and_keys (store : List (String × String))
    (file : FileState) (t p sid : String) :
    (t = "" ∨ p = "" →
      SessionStore.GetSessionId store t p = "" ∧
      SessionStore.SetSessionId store file t p sid = (store, file) ∧
      SessionStore.ClearSession store file t p = (store, file)) ∧
    (GoodKeys store →
      GoodKeys (SessionStore.SetSessionId store file t p sid).1 ∧
      GoodKeys (SessionStore.ClearSession store file t p).1) := by
  constructor
  · intro h
    exact ⟨by rw [SessionStore.GetSessionId, if_pos h],
           by rw [SessionStore.SetSessionId, if_pos h],
           by rw [SessionStore.ClearSession, if_pos h]⟩
  · intro hg
    constructor
    · by_cases h : t = "" ∨ p = ""
      · rw [SessionStore.SetSessionId, if_pos h]
        exact hg
      · push_neg at h
        rw [SessionStore.SetSessionId, if_neg (by simp [h.1, h.2])]
        intro q hq
        rcases mem_aset hq with h2 | h2
        · exact hg q h2
        · exact ⟨t, p, h.1, h.2, h2⟩
    · by_cases h : t = "" ∨ p = ""
      · rw [SessionStore.ClearSession, if_pos h]
        exact hg
      · rw [SessionStore.ClearSession, if_neg h]
        intro q hq
        exact hg q (List.mem_of_mem_filter hq)

theorem SessionStore_empty_noop_and_keys_witness :
    SessionStore.GetSessionId [] "" "claude" = "" ∧
    GoodKeys (SessionStore.SetSessionId [] FileState.absent "tgt" "claude" "s1").1 :=
  ⟨((SessionStore_empty_noop_and_keys [] FileState.absent "" "claude" "s1").1
      (Or.inl rfl)).1,
   ((SessionStore_empty_noop_and_keys [] FileState.absent "tgt" "claude" "s1").2
      (fun q hq => absurd hq (List.not_mem_nil q))).1⟩

/-! ## C4: LoadSettings totality and write-back -/

/-- C4 counterexample: an unparsable settings file is not written back.
LoadSettings on the malformed state returns the defaults but leaves the file
malformed, which is not the saved default document the claim requires. -/
theorem LoadSettings_malformed_no_writeback :
    (LoadSettings FileState.malformed).1 = ({} : Settings) ∧
    (LoadSettings FileState.malformed).2 = FileState.malformed ∧
    (LoadSettings FileState.malformed).2 ≠ SaveSettings ({} : Settings) := by
  refine ⟨rfl, rfl, ?_⟩
  intro h
  simp [LoadSettings, SaveSettings] at h

/-- C4 amended: LoadSettings never fails and always returns a Settings
record; when the file is absent it returns the defaults and writes them
back; when the file exists but is unparsable it returns the defaults and
leaves the file untouched (no write-back); a parsed file is left as is. -/
theorem LoadSettings_total (j : JVal) :
    LoadSettings FileState.absent = ({}, SaveSettings ({} : Settings)) ∧
    LoadSettings FileState.malformed = ({}, FileState.malformed) ∧
    (LoadSettings (FileState.content j)).2 = FileState.content j :=
  ⟨rfl, rfl, rfl⟩

/-! ## C5: the save-then-load round trip -/

/-- C5 counterexample: a record that is well-formed in the claim sense
(positive response timeout, valid provider) but whose BYOK record carries a
negative timeout_ms does not round trip: the negative timeout is omitted on
save and loads back as 0. -/
theorem load_save_negative_byok_timeout :
    (0 : Int) <
      ({ byok := [("copilot", { timeout_ms := -1 })] } : Settings).response_timeout_ms ∧
    (LoadSettings (SaveSettings
        ({ byok := [("copilot", { timeout_ms := -1 })] } : Settings))).1 ≠
      ({ byok := [("copilot", { timeout_ms := -1 })] } : Settings) := by
  constructor
  · decide
  · decide

/-- C5 amended: for settings with a positive response timeout, any valid
provider, non-negative BYOK timeouts and maps without duplicate keys (the
map type guarantees the latter), loading after saving reproduces every
field: the scalars exactly, the two maps as key-to-value lookups (so empty
optional strings and empty maps, which are saved as absent, come back
indistinguishable from absent ones). -/
theorem load_save_roundTrip (s : Settings)
    (h1 : 0 < s.response_timeout_ms)
    (h2 : nodupKeys s.sessions) (h3 : nodupKeys s.byok)
    (h4 : ∀ p ∈ s.byok, 0 ≤ p.2.timeout_ms) :
    (LoadSettings (SaveSettings s)).1.default_provider = s.default_provider ∧
    (LoadSettings (SaveSettings s)).1.custom_prompt = s.custom_prompt ∧
    (LoadSettings (SaveSettings s)).1.response_timeout_ms = s.response_timeout_ms ∧
    (∀ k, alookup (LoadSettings (SaveSettings s)).1.sessions k = alookup s.sessions k) ∧
    (∀ k, alookup (LoadSettings (SaveSettings s)).1.byok k = alookup s.byok k) :=
  ⟨load_save_dp s, load_save_cp s, load_save_to s h1,
   fun k => load_save_sessions s h2 k, fun k => load_save_byok s h3 h4 k⟩

theorem load_save_roundTrip_witness :
    (LoadSettings (SaveSettings ({ custom_prompt := "hi",
                                   sessions := [("a|copilot", "s1")],
                                   byok := [("copilot", { enabled := true,
                                                          api_key := "k" })] } :
        Settings))).1.custom_prompt = "hi" :=
  (load_save_roundTrip _ (by decide) (by simp [nodupKeys]) (by simp [nodupKeys])
    (by decide)).2.1

/-! ## C7: the timeout control command -/

/-- C7: with a parsed numeric value below 1000 ms the timeout command is
rejected with an error and mutates nothing: the whole world (settings file,
store, session, live agent) is returned unchanged (the file hypothesis rules
out the absent state, where merely loading settings creates the default
file).  With a value of at least 1000 ms it succeeds, persists the new value
(reading the file back yields it), and applies it to the live agent when one
exists. -/
theorem AgentCommand_timeout_spec (w : World) (rest : String) (ms : Int)
    (hms : stoi rest = some ms) (hfile : w.file ≠ FileState.absent) :
    (ms < 1000 →
      AgentCommand_timeout w rest =
        { w := w, ok := false, err := "Timeout must be at least 1000 ms (1 second)." }) ∧
    (1000 ≤ ms →
      (AgentCommand_timeout w rest).ok = true ∧
      (AgentCommand_timeout w rest).w.file =
        SaveSettings { (LoadSettings w.file).1 with response_timeout_ms := ms } ∧
      (LoadSettings (AgentCommand_timeout w rest).w.file).1.response_timeout_ms = ms ∧
      (∀ a, w.session.agent = some a →
        (AgentCommand_timeout w rest).w.session.agent = some { a with timeout_ms := ms } ∧
        Ev.set_timeout ms ∈ (AgentCommand_timeout w rest).trace) ∧
      (w.session.agent = none →
        (AgentCommand_timeout w rest).w.session = w.session)) := by
  have hrest : rest ≠ "" := by
    intro he
    rw [he] at hms
    exact Option.noConfusion ((show stoi "" = none from rfl) ▸ hms)
  have hL2 : (LoadSettings w.file).2 = w.file := LoadSettings_preserves_file _ hfile
  constructor
  · intro hlt
    rw [AgentCommand_timeout]
    simp only [if_neg hrest, hms, hL2, if_pos hlt]
  · intro hge
    have hnlt : ¬ ms < 1000 := not_lt.mpr hge
    rw [AgentCommand_timeout]
    simp only [if_neg hrest, hms, hL2, if_neg hnlt]
    have hto : (LoadSettings (SaveSettings
        { (LoadSettings w.file).1 with response_timeout_ms := ms })).1.response_timeout_ms
        = ms :=
      load_save_to { (LoadSettings w.file).1 with response_timeout_ms := ms }
        (by simpa using lt_of_lt_of_le (by norm_num) hge)
    cases ha : w.session.agent with
    | none =>
      refine ⟨rfl, rfl, hto, ?_, fun _ => rfl⟩
      intro a ha2
      exact Option.noConfusion ha2
    | some a0 =>
      refine ⟨rfl, rfl, hto, ?_, ?_⟩
      · intro a ha2
        injection ha2 with ha3
        subst ha3
        exact ⟨rfl, List.mem_singleton.mpr rfl⟩
      · intro hn
        exact Option.noConfusion hn

/-- What the common tail of EnsureAgent does and does not touch: it always
reports ready with the created flag it was handed, binds the requested
target, leaves store and file alone, and either keeps the agent object or
merely re-binds its conversation id. -/
theorem ensureTail_facts (w : World) (settings : Settings) (target : String)
    (created : Bool) (trace : List Ev) :
    (ensureTail w settings target created trace).ready = true ∧
    (ensureTail w settings target created trace).created = created ∧
    (ensureTail w settings target created trace).err = "" ∧
    (ensureTail w settings target created trace).w.session.initialized
      = w.session.initialized ∧
    (ensureTail w settings target created trace).w.session.provider
      = w.session.provider ∧
    (ensureTail w settings target created trace).w.session.target = target ∧
    (ensureTail w settings target created trace).w.store = w.store ∧
    (ensureTail w settings target created trace).w.file = w.file ∧
    ((ensureTail w settings target created trace).w.session.agent = w.session.agent ∨
      ∃ a sid, w.session.agent = some a ∧
        (ensureTail w settings target created trace).w.session.agent
          = some { a with session_id := sid }) := by
  unfold ensureTail
  dsimp only
  split_ifs <;>
    first
      | (refine ⟨rfl, rfl, rfl, rfl, rfl, ?_, rfl, rfl, Or.inl rfl⟩; simp_all)
      | (cases hA : w.session.agent with
         | none => simp_all
         | some a => simp_all)

/-- The common tail keeps the invariant when it is handed a live initialized
session, and can never report failure. -/
theorem ensureTail_inv (w : World) (settings : Settings) (target : String)
    (created : Bool) (trace : List Ev)
    (h1 : w.session.agent.isSome = true) (h2 : w.session.initialized = true) :
    SessionInv (ensureTail w settings target created trace).w.session ∧
    ((ensureTail w settings target created trace).ready = false →
      NoAgentClean (ensureTail w settings target created trace).w.session) := by
  obtain ⟨f1, f2, f3, f4, f5, f6, f7, f8, f9⟩ :=
    ensureTail_facts w settings target created trace
  refine ⟨Or.inr ⟨?_, by rw [f4]; exact h2⟩, ?_⟩
  · rcases f9 with h | ⟨a, sid, ha, h⟩
    · rw [h]; exact h1
    · rw [h]; rfl
  · intro hr
    rw [f1] at hr
    cases hr

/-- Through the common tail the agent object survives up to a conversation
re-bind, keeping its provider. -/
theorem ensureTail_agent_provider (w : World) (settings : Settings) (target : String)
    (created : Bool) (trace : List Ev) (q : ProviderType)
    (ha : ∃ a, w.session.agent = some a ∧ a.provider = q) :
    ∃ a2, (ensureTail w settings target created trace).w.session.agent = some a2 ∧
          a2.provider = q := by
  obtain ⟨a, ha, hp⟩ := ha
  obtain ⟨_, _, _, _, _, _, _, _, f9⟩ := ensureTail_facts w settings target created trace
  rcases f9 with h | ⟨a1, sid, ha1, h⟩
  · exact ⟨a, by rw [h, ha], hp⟩
  · rw [ha1] at ha
    injection ha with he
    subst he
    exact ⟨{ a1 with session_id := sid }, h, hp⟩

/-- A successful fresh build: no live agent on entry, creation and the
initialization handshake succeed; EnsureAgent reports ready and created and
the session now holds a live agent for the requested provider. -/
theorem EnsureAgent_fresh (env : Env) (w : World) (settings : Settings) (target : String)
    (hnone : w.session.agent = none)
    (hc : env.create_ok settings.default_provider = true)
    (hi : env.init_ok settings.default_provider = true) :
    (EnsureAgent env w settings target).ready = true ∧
    (EnsureAgent env w settings target).created = true ∧
    (EnsureAgent env w settings target).w.session.provider = settings.default_provider ∧
    (EnsureAgent env w settings target).w.session.initialized = true ∧
    (∃ a2, (EnsureAgent env w settings target).w.session.agent = some a2 ∧
           a2.provider = settings.default_provider) := by
  unfold EnsureAgent
  dsimp only
  rw [if_neg (by simp [hnone])]
  rw [hnone]
  dsimp only
  rw [if_neg (by simp [hc])]
  by_cases hb : settings.byokUsable = true
  · simp only [hb, if_true]
    rw [if_neg (by simp [hi])]
    exact ⟨(ensureTail_facts _ _ _ _ _).1, (ensureTail_facts _ _ _ _ _).2.1,
      (ensureTail_facts _ _ _ _ _).2.2.2.2.1,
      (ensureTail_facts _ _ _ _ _).2.2.2.1,
      ensureTail_agent_provider _ _ _ _ _ _ ⟨_, rfl, rfl⟩⟩
  · simp only [hb, if_false]
    rw [if_neg (by simp [hi])]
    exact ⟨(ensureTail_facts _ _ _ _ _).1, (ensureTail_facts _ _ _ _ _).2.1,
      (ensureTail_facts _ _ _ _ _).2.2.2.2.1,
      (ensureTail_facts _ _ _ _ _).2.2.2.1,
      ensureTail_agent_provider _ _ _ _ _ _ ⟨_, rfl, rfl⟩⟩

/-- After a successful EnsureAgent, the copilot command reports the created
flag the build produced and keeps the built agent and its provider, whatever
the query outcome. -/
theorem ask_facts (env : Env) (w : World) (target question : String)
    (hq : ¬ question = "")
    (hr : (EnsureAgent env { w with file := (LoadSettings w.file).2 }
            (LoadSettings w.file).1 target).ready = true) :
    (CopilotCommand_DoExecute env w target question).created =
      (EnsureAgent env { w with file := (LoadSettings w.file).2 }
        (LoadSettings w.file).1 target).created ∧
    (CopilotCommand_DoExecute env w target question).w.session.provider =
      (EnsureAgent env { w with file := (LoadSettings w.file).2 }
        (LoadSettings w.file).1 target).w.session.provider ∧
    (CopilotCommand_DoExecute env w target question).w.session.agent =
      (EnsureAgent env { w with file := (LoadSettings w.file).2 }
        (LoadSettings w.file).1 target).w.session.agent := by
  unfold CopilotCommand_DoExecute
  rw [if_neg hq]
  dsimp only
  rw [if_neg (by simp [hr])]
  repeat' split
  all_goals exact ⟨rfl, rfl, rfl⟩

/-- When a live agent is bound to the requested provider and target and the
system prompt is current, EnsureAgent reuses it unchanged: it only re-binds
the debugger client and clears the aborted flag, makes no external call, and
reports ready without created. -/
theorem EnsureAgent_reuse (env : Env) (w : World) (settings : Settings) (target : String)
    (a : AgentObj) (ha : w.session.agent = some a)
    (hprov : w.session.provider = settings.default_provider)
    (hprompt : w.session.system_prompt = GetFullSystemPrompt settings.custom_prompt)
    (htgt : w.session.target = target) :
    EnsureAgent env w settings target =
      { w := { w with session := { w.session with dbg := true, aborted := false } },
        ready := true, created := false, err := "", trace := [] } := by
  unfold EnsureAgent
  dsimp only
  rw [if_neg (by simp [hprov])]
  rw [ha]
  dsimp only
  unfold ensureTail
  dsimp only
  have hpne : ¬ (GetFullSystemPrompt settings.custom_prompt ≠ w.session.system_prompt) := by
    simp [hprompt]
  simp only [if_neg hpne]
  simp only [if_pos htgt]
  rw [← ha]
  rfl

/-- The file state after SetSessionId loads back with the same default
provider and custom prompt as the file it started from. -/
theorem SetSessionId_file_stable (store : List (String × String)) (f : FileState)
    (t p sid : String) :
    (LoadSettings (SessionStore.SetSessionId store f t p sid).2).1.default_provider
      = (LoadSettings f).1.default_provider ∧
    (LoadSettings (SessionStore.SetSessionId store f t p sid).2).1.custom_prompt
      = (LoadSettings f).1.custom_prompt := by
  unfold SessionStore.SetSessionId
  split_ifs with h
  · exact ⟨rfl, rfl⟩
  · unfold SessionStore.Save
    exact ⟨load_save_dp _, load_save_cp _⟩

/-- Under the reuse conditions, one copilot run sends exactly one message:
the question alone when primed or promptless, the primed system prompt
otherwise — whatever the query outcome. -/
theorem ask_sends_one_message (env : Env) (w : World) (target question : String)
    (a : AgentObj)
    (hq : ¬ question = "")
    (ha : w.session.agent = some a)
    (hprov : w.session.provider = (LoadSettings w.file).1.default_provider)
    (hprompt : w.session.system_prompt
      = GetFullSystemPrompt (LoadSettings w.file).1.custom_prompt)
    (htgt : w.session.target = target) :
    queries (CopilotCommand_DoExecute env w target question).trace
      = [if w.session.primed = true ∨ w.session.system_prompt = "" then question
         else w.session.system_prompt ++ "\n\n---\n\n" ++ question] := by
  unfold CopilotCommand_DoExecute
  rw [if_neg hq]
  dsimp only
  rw [EnsureAgent_reuse env { w with file := (LoadSettings w.file).2 }
    (LoadSettings w.file).1 target a ha hprov hprompt htgt]
  dsimp only
  rw [if_neg (by simp)]
  repeat' split
  all_goals rfl

/-- Under the reuse conditions, a copilot run whose query returns normally
sets primed and leaves the agent, provider, prompt and target binding in
place; the file it leaves behind still loads to the same default provider
and custom prompt. -/
theorem ask_reuse_state (env : Env) (w : World) (target question : String)
    (a : AgentObj) (resp : String)
    (hq : ¬ question = "")
    (ha : w.session.agent = some a)
    (hprov : w.session.provider = (LoadSettings w.file).1.default_provider)
    (hprompt : w.session.system_prompt
      = GetFullSystemPrompt (LoadSettings w.file).1.custom_prompt)
    (htgt : w.session.target = target)
    (hquery : env.query (if w.session.primed = true ∨ w.session.system_prompt = ""
        then question
        else w.session.system_prompt ++ "\n\n---\n\n" ++ question) = Except.ok resp) :
    (CopilotCommand_DoExecute env w target question).w.session.primed = true ∧
    (CopilotCommand_DoExecute env w target question).w.session.agent = some a ∧
    (CopilotCommand_DoExecute env w target question).w.session.provider
      = w.session.provider ∧
    (CopilotCommand_DoExecute env w target question).w.session.system_prompt
      = w.session.system_prompt ∧
    (CopilotCommand_DoExecute env w target question).w.session.target = target ∧
    (LoadSettings (CopilotCommand_DoExecute env w target
        question).w.file).1.default_provider
      = (LoadSettings w.file).1.default_provider ∧
    (LoadSettings (CopilotCommand_DoExecute env w target question).w.file).1.custom_prompt
      = (LoadSettings w.file).1.custom_prompt := by
  have hstable := LoadSettings_stable w.file
  unfold CopilotCommand_DoExecute
  rw [if_neg hq]
  dsimp only
  rw [EnsureAgent_reuse env { w with file := (LoadSettings w.file).2 }
    (LoadSettings w.file).1 target a ha hprov hprompt htgt]
  dsimp only
  rw [if_neg (by simp)]
  rw [hquery]
  dsimp only
  repeat' split
  all_goals refine ⟨rfl, ha, rfl, rfl, htgt, ?_, ?_⟩
  all_goals first
    | exact hstable.1
    | exact hstable.2
    | exact (SetSessionId_file_stable _ _ _ _ _).1.trans hstable.1
    | exact (SetSessionId_file_stable _ _ _ _ _).2.trans hstable.2

/-! ## C3: priming across two consecutive Ask calls -/

/-- C3: two consecutive Ask calls with the same target and no intervening
control command: starting unprimed with a current system prompt (which is
never empty), the first call sends system prompt, separator and question and
flips primed from false to true once the query returns; the second call
sends only the raw question text. -/
theorem ask_priming_sequence (env : Env) (w : World) (target q1 q2 : String)
    (a : AgentObj) (resp : String)
    (hq1 : ¬ q1 = "") (hq2 : ¬ q2 = "")
    (ha : w.session.agent = some a)
    (hprov : w.session.provider = (LoadSettings w.file).1.default_provider)
    (hprompt : w.session.system_prompt
      = GetFullSystemPrompt (LoadSettings w.file).1.custom_prompt)
    (htgt : w.session.target = target)
    (hprimed : w.session.primed = false)
    (hquery : env.query (w.session.system_prompt ++ "\n\n---\n\n" ++ q1)
      = Except.ok resp) :
    w.session.primed = false ∧
    queries (CopilotCommand_DoExecute env w target q1).trace
      = [w.session.system_prompt ++ "\n\n---\n\n" ++ q1] ∧
    (CopilotCommand_DoExecute env w target q1).w.session.primed = true ∧
    queries (CopilotCommand_DoExecute env
        (CopilotCommand_DoExecute env w target q1).w target q2).trace = [q2] := by
  have hspne : ¬ w.session.system_prompt = "" := by
    rw [hprompt]
    exact GetFullSystemPrompt_ne _
  have hfp : (if w.session.primed = true ∨ w.session.system_prompt = "" then q1
      else w.session.system_prompt ++ "\n\n---\n\n" ++ q1)
      = w.session.system_prompt ++ "\n\n---\n\n" ++ q1 := by
    rw [if_neg]
    simp [hprimed, hspne]
  have h1 := ask_sends_one_message env w target q1 a hq1 ha hprov hprompt htgt
  rw [hfp] at h1
  obtain ⟨hp2, ha2, hprov2, hsp2, htgt2, hdp2, hcp2⟩ :=
    ask_reuse_state env w target q1 a resp hq1 ha hprov hprompt htgt
      (by rw [hfp]; exact hquery)
  have hprov2b : (CopilotCommand_DoExecute env w target q1).w.session.provider
      = (LoadSettings (CopilotCommand_DoExecute env w target
          q1).w.file).1.default_provider := by
    rw [hprov2, hdp2]
    exact hprov
  have hprompt2b : (CopilotCommand_DoExecute env w target q1).w.session.system_prompt
      = GetFullSystemPrompt (LoadSettings (CopilotCommand_DoExecute env w target
          q1).w.file).1.custom_prompt := by
    rw [hsp2, hcp2]
    exact hprompt
  have h3 := ask_sends_one_message env (CopilotCommand_DoExecute env w target q1).w
    target q2 a hq2 ha2 hprov2b hprompt2b htgt2
  rw [if_pos (Or.inl hp2)] at h3
  exact ⟨hprimed, h1, hp2, h3⟩

theorem ask_priming_sequence_witness :
    (CopilotCommand_DoExecute
      ⟨fun _ => true, fun _ => true, fun _ => "", fun _ => Except.ok "resp",
       fun _ => "", fun _ => ("", "")⟩
      { session := { agent := some { provider := ProviderType.Copilot },
                     provider := ProviderType.Copilot, target := "tgt",
                     system_prompt := kSystemPrompt },
        file := FileState.content (saveJson {}) }
      "tgt" "q1").w.session.primed = true :=
  (ask_priming_sequence
    ⟨fun _ => true, fun _ => true, fun _ => "", fun _ => Except.ok "resp",
     fun _ => "", fun _ => ("", "")⟩
    { session := { agent := some { provider := ProviderType.Copilot },
                   provider := ProviderType.Copilot, target := "tgt",
                   system_prompt := kSystemPrompt },
      file := FileState.content (saveJson {}) }
    "tgt" "q1" "q2" { provider := ProviderType.Copilot } "resp"
    (by decide) (by decide) rfl rfl rfl rfl rfl rfl).2.2.1

/-! ## C10: a query exception skips everything after the query -/

/-- C10: if the agent query throws during an Ask that got past EnsureAgent,
the command reports the exception message as its error and skips everything
after the query: the whole world (session record including the primed flag,
session store, settings file) is exactly what EnsureAgent left — so primed
keeps its prior value and nothing is persisted — and beyond the EnsureAgent
phase the only external call in the trace is the query itself, so no session
id is read from the agent. -/
theorem ask_query_throws (env : Env) (w : World) (target question e : String)
    (hq : ¬ question = "")
    (hr : (EnsureAgent env { w with file := (LoadSettings w.file).2 }
            (LoadSettings w.file).1 target).ready = true)
    (hquery : env.query (if (EnsureAgent env { w with file := (LoadSettings w.file).2 }
          (LoadSettings w.file).1 target).w.session.primed = true
        ∨ (EnsureAgent env { w with file := (LoadSettings w.file).2 }
            (LoadSettings w.file).1 target).w.session.system_prompt = ""
        then question
        else (EnsureAgent env { w with file := (LoadSettings w.file).2 }
            (LoadSettings w.file).1 target).w.session.system_prompt
          ++ "\n\n---\n\n" ++ question) = Except.error e) :
    (CopilotCommand_DoExecute env w target question).ok = false ∧
    (CopilotCommand_DoExecute env w target question).err = e ∧
    (CopilotCommand_DoExecute env w target question).w =
      (EnsureAgent env { w with file := (LoadSettings w.file).2 }
        (LoadSettings w.file).1 target).w ∧
    (CopilotCommand_DoExecute env w target question).w.session.primed =
      (EnsureAgent env { w with file := (LoadSettings w.file).2 }
        (LoadSettings w.file).1 target).w.session.primed ∧
    (CopilotCommand_DoExecute env w target question).trace =
      (EnsureAgent env { w with file := (LoadSettings w.file).2 }
        (LoadSettings w.file).1 target).trace ++
      [Ev.query (if (EnsureAgent env { w with file := (LoadSettings w.file).2 }
            (LoadSettings w.file).1 target).w.session.primed = true
          ∨ (EnsureAgent env { w with file := (LoadSettings w.file).2 }
              (LoadSettings w.file).1 target).w.session.system_prompt = ""
          then question
          else (EnsureAgent env { w with file := (LoadSettings w.file).2 }
              (LoadSettings w.file).1 target).w.session.system_prompt
            ++ "\n\n---\n\n" ++ question)] := by
  unfold CopilotCommand_DoExecute
  rw [if_neg hq]
  dsimp only
  rw [if_neg (by simp [hr])]
  rw [hquery]
  exact ⟨rfl, rfl, rfl, rfl, rfl⟩

theorem ask_query_throws_witness :
    (CopilotCommand_DoExecute
      ⟨fun _ => true, fun _ => true, fun _ => "", fun _ => Except.error "boom",
       fun _ => "", fun _ => ("", "")⟩
      { file := FileState.content (saveJson {}) } "tgt" "q").err = "boom" :=
  (ask_query_throws
    ⟨fun _ => true, fun _ => true, fun _ => "", fun _ => Except.error "boom",
     fun _ => "", fun _ => ("", "")⟩
    { file := FileState.content (saveJson {}) } "tgt" "q" "boom"
    (by decide) rfl rfl).2.1

/-! ## C1: provider switch tears down, next Ask rebuilds -/

/-- C1: when a live agent exists and the provider control command switches
default_provider to a different provider, the agent is torn down before the
command returns: shutdown is called, the agent released, and the transient
fields (provider name, target, session id, system prompt, primed) cleared;
and the next Ask, provided creation and initialization succeed for the new
provider, builds a fresh agent for it and reports created = true. -/
theorem AgentCommand_provider_switch (env : Env) (w : World)
    (rest target question : String) (a : AgentObj) (p : ProviderType)
    (hagent : w.session.agent = some a)
    (hp : ParseProviderType rest = Except.ok p)
    (hne : ¬ p = (LoadSettings w.file).1.default_provider)
    (hq : ¬ question = "")
    (hc : env.create_ok p = true) (hi : env.init_ok p = true) :
    Ev.shutdown ∈ (AgentCommand_provider w rest).trace ∧
    (AgentCommand_provider w rest).w.session.agent = none ∧
    (AgentCommand_provider w rest).w.session.provider_name = "" ∧
    (AgentCommand_provider w rest).w.session.target = "" ∧
    (AgentCommand_provider w rest).w.session.session_id = "" ∧
    (AgentCommand_provider w rest).w.session.system_prompt = "" ∧
    (AgentCommand_provider w rest).w.session.primed = false ∧
    (CopilotCommand_DoExecute env (AgentCommand_provider w rest).w target
        question).created = true ∧
    (CopilotCommand_DoExecute env (AgentCommand_provider w rest).w target
        question).w.session.provider = p ∧
    (∃ a2, (CopilotCommand_DoExecute env (AgentCommand_provider w rest).w target
        question).w.session.agent = some a2 ∧ a2.provider = p) := by
  have hrest : ¬ rest = "" := by
    intro he
    rw [he, show ParseProviderType "" = Except.error "Unknown provider: " from rfl] at hp
    cases hp
  have hcmd : AgentCommand_provider w rest =
      { w := { session := (ResetAgentSession w.session).1, store := w.store,
               file := SaveSettings
                 { (LoadSettings w.file).1 with default_provider := p } },
        ok := true, err := "",
        trace := (ResetAgentSession w.session).2 } := by
    unfold AgentCommand_provider
    rw [if_neg hrest, hp]
    dsimp only
    rw [if_pos hne]
  rw [hcmd]
  dsimp only
  have hshut : (ResetAgentSession w.session).2 = [Ev.shutdown] := by
    unfold ResetAgentSession
    rw [hagent]
    rfl
  refine ⟨by rw [hshut]; exact List.mem_singleton.mpr rfl,
    rfl, rfl, rfl, rfl, rfl, rfl, ?_⟩
  -- the next Ask: abbreviate the world the command leaves behind
  set W2 : World :=
    { session := (ResetAgentSession w.session).1, store := w.store,
      file := SaveSettings { (LoadSettings w.file).1 with default_provider := p } }
    with hW2
  have hdp : (LoadSettings W2.file).1.default_provider = p :=
    load_save_dp { (LoadSettings w.file).1 with default_provider := p }
  have hfresh := EnsureAgent_fresh env { W2 with file := (LoadSettings W2.file).2 }
    (LoadSettings W2.file).1 target
    (by rw [hW2]; rfl) (by rw [hdp]; exact hc) (by rw [hdp]; exact hi)
  have hask := ask_facts env W2 target question hq hfresh.1
  refine ⟨by rw [hask.1]; exact hfresh.2.1, by rw [hask.2.1, hfresh.2.2.1]; exact hdp, ?_⟩
  obtain ⟨a2, ha2, hp2⟩ := hfresh.2.2.2.2
  exact ⟨a2, by rw [hask.2.2]; exact ha2, by rw [hp2]; exact hdp⟩

theorem AgentCommand_provider_switch_witness :
    Ev.shutdown ∈ (AgentCommand_provider
      { session := { agent := some { provider := ProviderType.Copilot } },
        file := FileState.content (saveJson {}) } "claude").trace ∧
    (CopilotCommand_DoExecute
      ⟨fun _ => true, fun _ => true, fun _ => "", fun _ => Except.ok "hello",
       fun _ => "", fun _ => ("", "")⟩
      (AgentCommand_provider
        { session := { agent := some { provider := ProviderType.Copilot } },
          file := FileState.content (saveJson {}) } "claude").w
      "tgt" "what is the stack?").created = true :=
  ⟨(AgentCommand_provider_switch
      ⟨fun _ => true, fun _ => true, fun _ => "", fun _ => Except.ok "hello",
       fun _ => "", fun _ => ("", "")⟩
      { session := { agent := some { provider := ProviderType.Copilot } },
        file := FileState.content (saveJson {}) }
      "claude" "tgt" "what is the stack?" { provider := ProviderType.Copilot }
      ProviderType.Claude rfl rfl (by decide) (by decide) rfl rfl).1,
   (AgentCommand_provider_switch
      ⟨fun _ => true, fun _ => true, fun _ => "", fun _ => Except.ok "hello",
       fun _ => "", fun _ => ("", "")⟩
      { session := { agent := some { provider := ProviderType.Copilot } },
        file := FileState.content (saveJson {}) }
      "claude" "tgt" "what is the stack?" { provider := ProviderType.Copilot }
      ProviderType.Claude rfl rfl (by decide) (by decide) rfl rfl).2.2.2.2.2.2.2.1⟩

/-! ## C2: the session invariant -/

/-- C2 counterexample: when agent creation returns null, EnsureAgent reports
failure with no agent in the record, but the provider-name transient field
was assigned just before the creation attempt and is left set rather than
cleared. -/
theorem EnsureAgent_create_fail_keeps_provider_name :
    (EnsureAgent ⟨fun _ => false, fun _ => false, fun _ => "", fun _ => Except.ok "",
        fun _ => "", fun _ => ("", "")⟩ {} {} "tgt").ready = false ∧
    (EnsureAgent ⟨fun _ => false, fun _ => false, fun _ => "", fun _ => Except.ok "",
        fun _ => "", fun _ => ("", "")⟩ {} {} "tgt").w.session.agent = none ∧
    (EnsureAgent ⟨fun _ => false, fun _ => false, fun _ => "", fun _ => Except.ok "",
        fun _ => "", fun _ => ("", "")⟩ {} {} "tgt").w.session.provider_name ≠ "" := by
  refine ⟨rfl, rfl, ?_⟩
  decide

/-- C2 amended: EnsureAgent preserves the invariant that the session either
holds no agent (with the transient fields initialized, session id, system
prompt, primed and target clear) or holds a live agent whose initialization
succeeded; every failed build reports failure in that clean no-agent state.
The provider and provider-name fields are exempt: a failed creation leaves
them set to the attempted provider (see the counterexample); a failed
initialize clears the name as well. -/
theorem EnsureAgent_invariant (env : Env) (w : World) (settings : Settings)
    (target : String) (h : SessionInv w.session) :
    SessionInv (EnsureAgent env w settings target).w.session ∧
    ((EnsureAgent env w settings target).ready = false →
      NoAgentClean (EnsureAgent env w settings target).w.session) := by
  unfold EnsureAgent
  dsimp only
  by_cases hg : (w.session.agent.isSome = true
      ∧ ¬ w.session.provider = settings.default_provider)
  · rw [if_pos hg]
    simp only [ResetAgentSession]
    dsimp only
    by_cases hcr : env.create_ok settings.default_provider = true
    · rw [if_neg (by simp [hcr])]
      by_cases hb : settings.byokUsable = true
      · simp only [hb, if_true]
        by_cases hin : env.init_ok settings.default_provider = true
        · rw [if_neg (by simp [hin])]
          exact ensureTail_inv _ _ _ _ _ rfl rfl
        · rw [if_pos (by simp [hin])]
          simp only [ResetAgentSession]
          exact ⟨Or.inl ⟨rfl, rfl, rfl, rfl, rfl, rfl⟩,
            fun _ => ⟨rfl, rfl, rfl, rfl, rfl, rfl⟩⟩
      · simp only [hb, if_false]
        by_cases hin : env.init_ok settings.default_provider = true
        · rw [if_neg (by simp [hin])]
          exact ensureTail_inv _ _ _ _ _ rfl rfl
        · rw [if_pos (by simp [hin])]
          simp only [ResetAgentSession]
          exact ⟨Or.inl ⟨rfl, rfl, rfl, rfl, rfl, rfl⟩,
            fun _ => ⟨rfl, rfl, rfl, rfl, rfl, rfl⟩⟩
    · rw [if_pos (by simp [hcr])]
      exact ⟨Or.inl ⟨rfl, rfl, rfl, rfl, rfl, rfl⟩,
        fun _ => ⟨rfl, rfl, rfl, rfl, rfl, rfl⟩⟩
  · rw [if_neg hg]
    cases hA : w.session.agent with
    | some a =>
      have hlive : w.session.initialized = true := by
        rcases h with hclean | hlive
        · rw [hclean.1] at hA; cases hA
        · exact hlive.2
      exact ensureTail_inv _ _ _ _ _ rfl hlive
    | none =>
      have hclean : NoAgentClean w.session := by
        rcases h with hclean | hlive
        · exact hclean
        · rw [hA] at hlive; cases hlive.1
      obtain ⟨_, hI, hS, hP, hPr, hT⟩ := hclean
      by_cases hcr : env.create_ok settings.default_provider = true
      · rw [if_neg (by simp [hcr])]
        by_cases hb : settings.byokUsable = true
        · simp only [hb, if_true]
          by_cases hin : env.init_ok settings.default_provider = true
          · rw [if_neg (by simp [hin])]
            exact ensureTail_inv _ _ _ _ _ rfl rfl
          · rw [if_pos (by simp [hin])]
            simp only [ResetAgentSession]
            exact ⟨Or.inl ⟨rfl, rfl, rfl, rfl, rfl, rfl⟩,
              fun _ => ⟨rfl, rfl, rfl, rfl, rfl, rfl⟩⟩
        · simp only [hb, if_false]
          by_cases hin : env.init_ok settings.default_provider = true
          · rw [if_neg (by simp [hin])]
            exact ensureTail_inv _ _ _ _ _ rfl rfl
          · rw [if_pos (by simp [hin])]
            simp only [ResetAgentSession]
            exact ⟨Or.inl ⟨rfl, rfl, rfl, rfl, rfl, rfl⟩,
              fun _ => ⟨rfl, rfl, rfl, rfl, rfl, rfl⟩⟩
      · rw [if_pos (by simp [hcr])]
        exact ⟨Or.inl ⟨rfl, hI, hS, hP, hPr, hT⟩,
          fun _ => ⟨rfl, hI, hS, hP, hPr, hT⟩⟩

theorem EnsureAgent_invariant_witness :
    SessionInv ({} : Session) ∧
    SessionInv (EnsureAgent ⟨fun _ => true, fun _ => true, fun _ => "",
        fun _ => Except.ok "", fun _ => "", fun _ => ("", "")⟩
        {} {} "tgt").w.session :=
  ⟨Or.inl ⟨rfl, rfl, rfl, rfl, rfl, rfl⟩,
   (EnsureAgent_invariant ⟨fun _ => true, fun _ => true, fun _ => "",
        fun _ => Except.ok "", fun _ => "", fun _ => ("", "")⟩
      {} {} "tgt" (Or.inl ⟨rfl, rfl, rfl, rfl, rfl, rfl⟩)).1⟩

theorem AgentCommand_timeout_spec_witness :
    AgentCommand_timeout { file := FileState.content (saveJson {}) } "500" =
      { w := { file := FileState.content (saveJson {}) }, ok := false,
        err := "Timeout must be at least 1000 ms (1 second)." } ∧
    (AgentCommand_timeout { file := FileState.content (saveJson {}) } "5000").ok = true :=
  ⟨(AgentCommand_timeout_spec { file := FileState.content (saveJson {}) } "500" 500
      rfl (by simp)).1 (by decide),
   ((AgentCommand_timeout_spec { file := FileState.content (saveJson {}) } "5000" 5000
      rfl (by simp)).2 (by decide)).1⟩

end LldbCopilot
